import Mathlib

/-!
Verification development for the `efibootgen` disk-image generator.

The definitions below are shallow embeddings of the C++ sources
(`efibootgen.cpp` together with the headers `fat.h`, `gpt.h`,
`disktools.h`, `status.h`):

* machine integers are modelled as `Nat`, with explicit `% 2 ^ 64`
  reductions only where the C++ computation can wrap;
* byte buffers are modelled as `List Nat` (each element a byte value)
  or as total functions `Nat → Nat` from byte offset to stored value,
  mirroring `memset`/field stores on the scratch sector;
* the pseudo-random GUIDs are universally quantified parameters;
* fallible operations return `Except System.Code _` mirroring
  `System::status_or_t`.

Theorems named `C1_…` … `C10_…` settle the frozen claims.
-/

namespace utils

/-- One entry of the lazily built CRC-32 table of `utils::rc_crc32`:
eight conditional shift/xor rounds applied to the index. -/
def crc32_table (i : Nat) : Nat :=
  (List.range 8).foldl
    (fun rem _ => if rem &&& 1 = 1 then (rem >>> 1) ^^^ 0xedb88320 else rem >>> 1) i

/-- `utils::rc_crc32`: reflected CRC-32, polynomial `0xEDB88320`.
`crc` is complemented on entry and on exit (`~crc` on a `uint32_t` is
xor with `0xffffffff`), and every buffer byte is folded through the
table.  Buffer bytes are reduced `&&& 0xff` as the C++ code casts each
`char` to `unsigned char`. -/
def rc_crc32 (crc : Nat) (buf : List Nat) : Nat :=
  let c0 := (crc &&& 0xffffffff) ^^^ 0xffffffff
  let c1 := buf.foldl
    (fun c octet => (c >>> 8) ^^^ crc32_table ((c &&& 0xff) ^^^ (octet &&& 0xff))) c0
  c1 ^^^ 0xffffffff

end utils

namespace disktools

/-- `disktools::kSectorSizeBytes`: the only supported sector size. -/
def kSectorSizeBytes : Nat := 512

/-- `disktools::kMBRSignature`. -/
def kMBRSignature : Nat := 0xaa55

namespace disk_sector_writer_t

/-- Image size in bytes computed by
`disk_sector_writer_t::create_writer` (fresh-image path):
round `content_size` up to the next multiple of 128 MiB with
`(content_size + (0x8000000 - 1)) & ~(0x8000000 - 1)`, then round up to
the next multiple of 512 with `(size + 511) & ~511`.  Both masks clear
the low bits, i.e. shift right then left; arithmetic is `size_t`
(64-bit). -/
def create_writer_size_bytes (content_size : Nat) : Nat :=
  let size := (((content_size + (0x8000000 - 1)) % 2 ^ 64) >>> 27) <<< 27
  (((size + (kSectorSizeBytes - 1)) % 2 ^ 64) >>> 9) <<< 9

/-- The sector count (`blocks`) handed to the `disk_sector_writer_t`
constructor. -/
def create_writer_total_sectors (content_size : Nat) : Nat :=
  create_writer_size_bytes content_size / kSectorSizeBytes

/-- Modelled from the spec's words (for comparison with the code's
`create_writer_size_bytes`): "The image capacity is
`max(content_bytes, 128 MiB)` rounded up to 128 MiB, then rounded up to
the sector size." -/
def spec_image_capacity (content_bytes : Nat) : Nat :=
  let m := max content_bytes 0x8000000
  let r := ((m + (0x8000000 - 1)) / 0x8000000) * 0x8000000
  ((r + 511) / 512) * 512

end disk_sector_writer_t

/-- `last_lba()` of a writer over `total` sectors: `total - 1`. -/
def last_lba (total_sectors : Nat) : Nat := total_sectors - 1

/-- Serialize a `w`-byte little-endian machine integer, one byte per
list element, as `memcpy` of a packed field does. -/
def bytesLE (w v : Nat) : List Nat := (List.range w).map (fun i => v / 256 ^ i % 256)

namespace gpt

/-- `kGptProtectivePartitionOSType`. -/
def kGptProtectivePartitionOSType : Nat := 0xee

/-- `kEfiPartSignature` — "EFI PART" little-endian. -/
def kEfiPartSignature : Nat := 0x5452415020494645

/-- `kEfiRevision`. -/
def kEfiRevision : Nat := 0x00010000

/-- `kEfiSystemPartitionUuid` — byte array from `gpt.h`. -/
def kEfiSystemPartitionUuid : List Nat :=
  [0x28, 0x73, 0x2a, 0xc1, 0x1f, 0xf8, 0xd2, 0x11,
   0xba, 0x4b, 0x00, 0xa0, 0xc9, 0x3e, 0xc9, 0x3b]

/-- `kEfiBootPartName` — the bytes of "EFI BOOT". -/
def kEfiBootPartName : List Nat := [0x45, 0x46, 0x49, 0x20, 0x42, 0x4f, 0x4f, 0x54]

/-- `gpt_header` from `gpt.h` (packed, 92 bytes).  GUID bytes are kept
as a byte list; every other field is a machine integer. -/
structure gpt_header where
  _signature : Nat
  _revision : Nat
  _header_size : Nat
  _header_crc32 : Nat
  _reserved0 : Nat
  _my_lba : Nat
  _alternate_lba : Nat
  _first_usable_lba : Nat
  _last_usable_lba : Nat
  _disk_guid : List Nat
  _partition_entry_lba : Nat
  _partition_entry_count : Nat
  _partition_entry_size : Nat
  _partition_array_crc32 : Nat
  deriving DecidableEq

/-- `gpt_partition_header` from `gpt.h` (packed, 128 bytes). -/
structure gpt_partition_header where
  _type_guid : List Nat
  _part_guid : List Nat
  _start_lba : Nat
  _end_lba : Nat
  _attributes : Nat
  _name : List Nat
  deriving DecidableEq

/-- `partition_info_t` from `gpt.h`. -/
structure partition_info_t where
  _first_usable_lba : Nat
  _last_usable_lba : Nat
  deriving DecidableEq

/-- The in-memory bytes of a packed `gpt_header` (field order and
widths from `gpt.h`; sizes 8+4+4+4+4+8+8+8+8+16+8+4+4+4 = 92). -/
def serialize_gpt_header (h : gpt_header) : List Nat :=
  bytesLE 8 h._signature ++ bytesLE 4 h._revision ++ bytesLE 4 h._header_size ++
  bytesLE 4 h._header_crc32 ++ bytesLE 4 h._reserved0 ++ bytesLE 8 h._my_lba ++
  bytesLE 8 h._alternate_lba ++ bytesLE 8 h._first_usable_lba ++
  bytesLE 8 h._last_usable_lba ++ h._disk_guid ++ bytesLE 8 h._partition_entry_lba ++
  bytesLE 4 h._partition_entry_count ++ bytesLE 4 h._partition_entry_size ++
  bytesLE 4 h._partition_array_crc32

/-- The in-memory bytes of a packed `gpt_partition_header`
(16+16+8+8+8+72 = 128). -/
def serialize_gpt_partition (p : gpt_partition_header) : List Nat :=
  p._type_guid ++ p._part_guid ++ bytesLE 8 p._start_lba ++ bytesLE 8 p._end_lba ++
  bytesLE 8 p._attributes ++ p._name

/-- The single partition entry built by `create_efi_boot_image`:
type GUID = EFI system partition, start/end copied from the header's
usable window, attributes 1, name "EFI BOOT" over a `0x20`-memset
72-byte field. -/
def create_efi_boot_image_partition (total_sectors : Nat) (part_guid : List Nat) :
    gpt_partition_header :=
  { _type_guid := kEfiSystemPartitionUuid
    _part_guid := part_guid
    _start_lba := 34
    _end_lba := last_lba total_sectors - 2
    _attributes := 1
    _name := kEfiBootPartName ++ List.replicate 64 0x20 }

/-- The primary GPT header of `create_efi_boot_image` just before its
own CRC is stored: all fields filled in (including
`_partition_array_crc32`, computed first) and `_header_crc32 = 0`. -/
def primary_gpt_header_pre (total_sectors : Nat) (disk_guid part_guid : List Nat) :
    gpt_header :=
  { _signature := kEfiPartSignature
    _revision := kEfiRevision
    _header_size := 92
    _header_crc32 := 0
    _reserved0 := 0
    _my_lba := 1
    _alternate_lba := last_lba total_sectors
    _first_usable_lba := 34
    _last_usable_lba := last_lba total_sectors - 2
    _disk_guid := disk_guid
    _partition_entry_lba := 2
    _partition_entry_count := 1
    _partition_entry_size := 128
    _partition_array_crc32 :=
      utils.rc_crc32 0
        (serialize_gpt_partition (create_efi_boot_image_partition total_sectors part_guid)) }

/-- The primary GPT header as written at LBA 1: the pre-header with
`_header_crc32` set to the CRC-32 of its own 92 serialized bytes. -/
def primary_gpt_header (total_sectors : Nat) (disk_guid part_guid : List Nat) : gpt_header :=
  { primary_gpt_header_pre total_sectors disk_guid part_guid with
    _header_crc32 :=
      utils.rc_crc32 0
        (serialize_gpt_header (primary_gpt_header_pre total_sectors disk_guid part_guid)) }

/-- The backup header before its CRC is stored: primary header with
`_my_lba`/`_alternate_lba` swapped, `_partition_entry_lba` set to
`last_lba - 1`, `_header_crc32` zeroed. -/
def backup_gpt_header_pre (total_sectors : Nat) (disk_guid part_guid : List Nat) :
    gpt_header :=
  { primary_gpt_header total_sectors disk_guid part_guid with
    _my_lba := (primary_gpt_header total_sectors disk_guid part_guid)._alternate_lba
    _alternate_lba := (primary_gpt_header total_sectors disk_guid part_guid)._my_lba
    _partition_entry_lba := last_lba total_sectors - 1
    _header_crc32 := 0 }

/-- The backup GPT header as written at the final LBA. -/
def backup_gpt_header (total_sectors : Nat) (disk_guid part_guid : List Nat) : gpt_header :=
  { backup_gpt_header_pre total_sectors disk_guid part_guid with
    _header_crc32 :=
      utils.rc_crc32 0
        (serialize_gpt_header (backup_gpt_header_pre total_sectors disk_guid part_guid)) }

/-- The `partition_info_t` returned by `create_efi_boot_image`, read
from the (by then backup-mutated) header; the usable-window fields are
untouched by the backup mutation. -/
def create_efi_boot_image_info (total_sectors : Nat) (disk_guid part_guid : List Nat) :
    partition_info_t :=
  { _first_usable_lba := (backup_gpt_header total_sectors disk_guid part_guid)._first_usable_lba
    _last_usable_lba := (backup_gpt_header total_sectors disk_guid part_guid)._last_usable_lba }

/-- `mbr_prec->_size_in_lba`: clamped to `0xFFFFFFFF` when
`writer->size()` (total bytes) exceeds `0xFFFFFFFF`, else `last_lba`. -/
def mbr_size_in_lba (total_sectors : Nat) : Nat :=
  if total_sectors * kSectorSizeBytes > 0xffffffff then 0xffffffff
  else last_lba total_sectors

/-- Store one byte into a buffer modelled as offset → value. -/
def store8 (buf : Nat → Nat) (off v : Nat) : Nat → Nat :=
  fun i => if i = off then v % 256 else buf i

/-- Store a byte list at consecutive offsets. -/
def storeBytes (buf : Nat → Nat) (off : Nat) : List Nat → (Nat → Nat)
  | [] => buf
  | b :: bs => storeBytes (store8 buf off b) (off + 1) bs

/-- The protective-MBR sector built by `create_efi_boot_image`:
a blank sector, the partition record's stores at offset 446 in program
order, and the `0xAA55` signature at offset 510. -/
def protective_mbr_sector (total_sectors : Nat) : Nat → Nat :=
  let buf := fun _ : Nat => 0
  let buf := store8 buf 446 0
  let buf := store8 buf 448 0x02
  let buf := store8 buf 450 kGptProtectivePartitionOSType
  let buf := storeBytes buf 454 (bytesLE 4 1)
  let buf := storeBytes buf 458 (bytesLE 4 (mbr_size_in_lba total_sectors))
  let buf := storeBytes buf 451 [0xff, 0xff, 0xff]
  storeBytes buf 510 (bytesLE 2 kMBRSignature)

/-- Read back a little-endian 32-bit value from a byte buffer. -/
def readLE32 (buf : Nat → Nat) (off : Nat) : Nat :=
  buf off + 256 * buf (off + 1) + 256 ^ 2 * buf (off + 2) + 256 ^ 3 * buf (off + 3)

end gpt

/-- The status codes of `status.h` (`System::Code`). -/
inductive Code where
  | OK | CANCELLED | UNKNOWN | INVALID_ARGUMENT | DEADLINE_EXCEEDED | NOT_FOUND
  | ALREADY_EXISTS | PERMISSION_DENIED | UNAUTHENTICATED | RESOURCE_EXHAUSTED
  | FAILED_PRECONDITION | ABORTED | OUT_OF_RANGE | UNIMPLEMENTED | INTERNAL
  | UNAVAILABLE | DATA_LOSS
  deriving DecidableEq

/-- The logical FS tree of `fs_t`: named directories over named files.
Directory entry lists stand for `fs_t::dir_entries_t` in its canonical
(sorted) iteration order. -/
inductive fs_node where
  | file (name : String) (size : Nat)
  | dir (name : String) (entries : List fs_node)

namespace fat

/-- `kFat16EOC`. -/
def kFat16EOC : Nat := 0xfff8

/-- `kFat32EOC`. -/
def kFat32EOC : Nat := 0x0ffffff8

/-- `fat_type` from `fat.h`. -/
inductive fat_type where
  | kFat16
  | kFat32
  deriving DecidableEq

/-- `kDiskTableFat16` — (sector limit, sectors per cluster). -/
def kDiskTableFat16 : List (Nat × Nat) := [(262144, 4), (524288, 8), (1048576, 16)]

/-- `kDiskTableFat32`. -/
def kDiskTableFat32 : List (Nat × Nat) :=
  [(16777216, 8), (33554432, 16), (67108864, 32), (0xffffffff, 64)]

/-- The table scan of `create_fat_partition`: first entry whose sector
limit is not exceeded wins (`break`); if no entry matches, the field
keeps its `memset` value 0. -/
def sectors_per_cluster_lookup (table : List (Nat × Nat)) (total_sectors : Nat) : Nat :=
  match table with
  | [] => 0
  | (limit, spc) :: rest =>
      if total_sectors ≤ limit then spc else sectors_per_cluster_lookup rest total_sectors

/-- `fat_bpb` from `fat.h`. -/
structure fat_bpb where
  _bytes_per_sector : Nat
  _sectors_per_cluster : Nat
  _reserved_sectors : Nat
  _num_fats : Nat
  _root_entry_count : Nat
  _total_sectors16 : Nat
  _media_descriptor : Nat
  _sectors_per_fat16 : Nat
  _sectors_per_track : Nat
  _num_heads : Nat
  _num_hidden_sectors : Nat
  _total_sectors32 : Nat
  deriving DecidableEq

/-- `fat16_extended_bpb` from `fat.h` (label and fs-type as bytes). -/
structure fat16_extended_bpb where
  _drive_num : Nat
  _reserved1 : Nat
  _boot_sig : Nat
  _volume_serial : Nat
  _volume_label : List Nat
  _file_sys_type : List Nat
  deriving DecidableEq

/-- `fat32_extended_bpb` from `fat.h`. -/
structure fat32_extended_bpb where
  _sectors_per_fat : Nat
  _flags : Nat
  _version : Nat
  _root_cluster : Nat
  _information_sector : Nat
  _boot_copy_sector : Nat
  _phys_drive_number : Nat
  _unused : Nat
  _ext_boot_signature : Nat
  _volume_id : Nat
  _volume_label : List Nat
  _file_system_type : List Nat
  deriving DecidableEq

/-- "FAT16   " as bytes. -/
def kFat16FsType : List Nat := [0x46, 0x41, 0x54, 0x31, 0x36, 0x20, 0x20, 0x20]

/-- "FAT32   " as bytes. -/
def kFat32FsType : List Nat := [0x46, 0x41, 0x54, 0x33, 0x32, 0x20, 0x20, 0x20]

/-- The outcome of the boot-sector/BPB construction in
`create_fat_partition`: the chosen FAT type, the common BPB, and
whichever extended BPB the union holds. -/
structure fat_format_t where
  _type : fat_type
  _bpb : fat_bpb
  _ext16 : Option fat16_extended_bpb
  _ext32 : Option fat32_extended_bpb

/-- The volume-label field: `memset` to `0x20` over 11 bytes, then
`memcpy` of `min(11, strlen(volumeLabel))` label bytes. -/
def volume_label_field (label : List Nat) : List Nat :=
  label.take 11 ++ List.replicate (11 - label.length) 0x20

/-- The geometry ladder for `_num_heads` in `create_fat_partition`. -/
def num_heads_for_size (size : Nat) : Nat :=
  if size ≤ 0x1f800000 then 16
  else if size ≤ 0x3f000000 then 32
  else if size ≤ 0x7e000000 then 64
  else if size ≤ 0xfc000000 then 128
  else 255

/-- The FAT type selection and BPB construction of
`create_fat_partition` (everything up to and including the
sectors-per-FAT computation), as a function of the partition sector
count, the random volume serial, and the label bytes. -/
def create_fat_partition_format (total_sectors serial : Nat) (label : List Nat) :
    fat_format_t :=
  let size := total_sectors * kSectorSizeBytes
  let heads := num_heads_for_size size
  if size < 0x20000000 then
    let spc := sectors_per_cluster_lookup kDiskTableFat16 total_sectors
    let root_dir_sector_count := (512 * 32 + (kSectorSizeBytes - 1)) / kSectorSizeBytes
    let tmp1 := total_sectors - (1 + root_dir_sector_count)
    let tmp2 := 256 * spc + 2
    let fatsz := (tmp1 + (tmp2 - 1)) / tmp2
    { _type := fat_type.kFat16
      _bpb := { _bytes_per_sector := kSectorSizeBytes
                _sectors_per_cluster := spc
                _reserved_sectors := 1
                _num_fats := 2
                _root_entry_count := 512
                _total_sectors16 := if total_sectors < 0x1000 then total_sectors % 0x10000 else 0
                _media_descriptor := 0xf8
                _sectors_per_fat16 := fatsz % 0x10000
                _sectors_per_track := 63
                _num_heads := heads
                _num_hidden_sectors := 0
                _total_sectors32 := if total_sectors < 0x1000 then 0 else total_sectors % 2 ^ 32 }
      _ext16 := some { _drive_num := 0x80
                       _reserved1 := 0
                       _boot_sig := 0x29
                       _volume_serial := serial
                       _volume_label := volume_label_field label
                       _file_sys_type := kFat16FsType }
      _ext32 := none }
  else
    let spc := sectors_per_cluster_lookup kDiskTableFat32 total_sectors
    let tmp1 := total_sectors - 32
    let tmp2 := (256 * spc + 2) / 2
    let fatsz := (tmp1 + (tmp2 - 1)) / tmp2
    { _type := fat_type.kFat32
      _bpb := { _bytes_per_sector := kSectorSizeBytes
                _sectors_per_cluster := spc
                _reserved_sectors := 32
                _num_fats := 2
                _root_entry_count := 0
                _total_sectors16 := 0
                _media_descriptor := 0xf8
                _sectors_per_fat16 := 0
                _sectors_per_track := 63
                _num_heads := heads
                _num_hidden_sectors := 0
                _total_sectors32 := total_sectors % 2 ^ 32 }
      _ext16 := none
      _ext32 := some { _sectors_per_fat := fatsz
                       _flags := 0x80
                       _version := 0
                       _root_cluster := 2
                       _information_sector := 1
                       _boot_copy_sector := 0
                       _phys_drive_number := 0x80
                       _unused := 0
                       _ext_boot_signature := 0x29
                       _volume_id := serial
                       _volume_label := volume_label_field label
                       _file_system_type := kFat32FsType } }

/-- The early-return structure of `create_fat_partition`:
`FAILED_PRECONDITION` before anything else when the writer is bad or
`total_sectors == 0`; `INTERNAL` when the boot-sector write at
partition LBA 0 fails; otherwise the function runs to its final
`return true` (later emission steps never change the return value). -/
def create_fat_partition_status (writer_good : Bool) (total_sectors : Nat)
    (boot_write_ok : Bool) : Except Code Bool :=
  if writer_good = false ∨ total_sectors = 0 then Except.error Code.FAILED_PRECONDITION
  else if boot_write_ok = false then Except.error Code.INTERNAL
  else Except.ok true

/-- `write_fat16_context_t`, reduced to what the FAT walk mutates: the
stream of 16-bit FAT entry stores (entry position, value) where the
position counts entries from the start of the FAT area (the pointer
starts at the beginning of the first FAT sector and
`check_need_new_sector` continues positions across flushed sectors),
the store pointer `_wp`, and `_next_free_cluster`. -/
structure write_fat16_context_t where
  _writes : List (Nat × Nat)
  _wp : Nat
  _next_free_cluster : Nat
  deriving DecidableEq

/-- `*_fat16++ = v` — a 16-bit store at the current pointer. -/
def push_fat16_entry (v : Nat) (s : write_fat16_context_t) : write_fat16_context_t :=
  { s with _writes := s._writes ++ [(s._wp, v % 0x10000)], _wp := s._wp + 1 }

/-- The file chain loop
`for (n = 0; n < num_clusters - 1; ++n) *_fat16++ = _next_free_cluster++;`. -/
def fat16_chain_loop : Nat → write_fat16_context_t → write_fat16_context_t
  | 0, s => s
  | n + 1, s =>
      fat16_chain_loop n
        { push_fat16_entry s._next_free_cluster s with
          _next_free_cluster := s._next_free_cluster + 1 }

mutual

/-- One iteration of `write_fat16_context_t::write_dir`'s loop body:
directories get one cluster and an EOC entry then recurse; files get
`num_clusters = ceil(size / bytes_per_cluster)` with the chain loop,
an extra `_next_free_cluster++`, and a final EOC entry.  Alongside the
context we accumulate the `_start_cluster` assignments `(name, start)`
in walk order. -/
def write_fat16_walk_node (bpc : Nat) :
    write_fat16_context_t × List (String × Nat) → fs_node →
    write_fat16_context_t × List (String × Nat)
  | (s, acc), fs_node.dir name entries =>
      let start := s._next_free_cluster
      let s1 := { s with _next_free_cluster := start + 1 }
      let s2 := push_fat16_entry kFat16EOC s1
      write_fat16_walk_list bpc (s2, acc ++ [(name, start)]) entries
  | (s, acc), fs_node.file name size =>
      let num_clusters := (size + (bpc - 1)) / bpc
      let start := s._next_free_cluster
      let s1 := { s with _next_free_cluster := start + 1 }
      if num_clusters > 1 then
        let s2 := fat16_chain_loop (num_clusters - 1) s1
        let s3 := { s2 with _next_free_cluster := s2._next_free_cluster + 1 }
        (push_fat16_entry kFat16EOC s3, acc ++ [(name, start)])
      else
        (push_fat16_entry kFat16EOC s1, acc ++ [(name, start)])

/-- The `for` loop over a directory's entries. -/
def write_fat16_walk_list (bpc : Nat) :
    write_fat16_context_t × List (String × Nat) → List fs_node →
    write_fat16_context_t × List (String × Nat)
  | s, [] => s
  | s, e :: es => write_fat16_walk_list bpc (write_fat16_walk_node bpc s e) es

end

/-- `write_fat16`: fixed entries 0 and 1 are stored by index into the
first FAT sector, the walk starts with the entry pointer still at the
beginning of that sector (`_wp = 0`) and `_next_free_cluster = 2`. -/
def write_fat16_run (sectors_per_cluster : Nat) (root_entries : List fs_node) :
    write_fat16_context_t × List (String × Nat) :=
  let bpc := sectors_per_cluster * kSectorSizeBytes
  let ctx0 : write_fat16_context_t :=
    { _writes := [(0, 0xff00 ||| 0xf8), (1, kFat16EOC)], _wp := 0, _next_free_cluster := 2 }
  write_fat16_walk_list bpc (ctx0, []) root_entries

/-- The value of FAT entry `i` after a store stream: the last store at
position `i` wins; unstored entries read 0 (the sectors were blank). -/
def fat16_entry (writes : List (Nat × Nat)) (i : Nat) : Nat :=
  writes.foldl (fun acc p => if p.1 = i then p.2 else acc) 0

/-- `write_file`'s source pointer: `memcpy` reads within the file's
byte buffer where possible; reads past the end of the `new char[size]`
allocation return unspecified heap bytes, modelled by the oracle
`junk`. -/
def file_src_byte (data : List Nat) (junk : Nat → Nat) (i : Nat) : Nat :=
  data.getD i (junk i)

/-- The do-while loop of `write_file`: each iteration unconditionally
copies one full sector from the source position, then advances and
re-tests `bytes_left >= 512`.  Returns the emitted bytes, the final
source offset, and the final (possibly negative) `bytes_left`. -/
def write_file_loop (data : List Nat) (junk : Nat → Nat) :
    Nat → Nat → Int → List Nat × Nat × Int
  | 0, off, bytes_left => ([], off, bytes_left)
  | fuel + 1, off, bytes_left =>
      let sec := (List.range kSectorSizeBytes).map (fun i => file_src_byte data junk (off + i))
      let bl := bytes_left - (kSectorSizeBytes : Int)
      if bl ≥ (kSectorSizeBytes : Int) then
        let r := write_file_loop data junk fuel (off + kSectorSizeBytes) bl
        (sec ++ r.1, r.2.1, r.2.2)
      else
        (sec, off + kSectorSizeBytes, bl)

/-- All bytes `write_file` emits for one file, in order: the do-while
sectors, then — only if `bytes_left > 0` remains — one final sector
holding the remaining bytes over a zeroed scratch sector. -/
def write_file_bytes (data : List Nat) (junk : Nat → Nat) : List Nat :=
  let r := write_file_loop data junk (data.length / kSectorSizeBytes + 1) 0 (Int.ofNat data.length)
  if r.2.2 > 0 then
    r.1 ++ (List.range kSectorSizeBytes).map
      (fun i => if i < r.2.2.toNat then file_src_byte data junk (r.2.1 + i) else 0)
  else r.1

/-- `bootx64_num_clusters` — declared `const` 0 in
`create_fat_partition` (the `//ZZZ:` block). -/
def bootx64_num_clusters : Nat := 0

/-- The first FAT sector built on the FAT32 branch of
`create_fat_partition`: 128 `uint32` entries, fixed stores to entries
0…4, the (dead) chain loop `for (n = 1; n < bootx64_num_clusters; ++n)`
starting at `cluster_counter = bootx64_start_cluster = 5`, and the
final flush `if (cluster_counter) fat32[cluster_counter] = kFat32EOC`.
The FS tree argument is never consulted — exactly as in the source. -/
def fat32_first_fat_sector (_fs_root_entries : List fs_node) : List Nat :=
  let fat0 := (((((List.replicate 128 0).set 0 (0x0fffff00 ||| 0xf8)).set 1
      kFat32EOC).set 2 kFat32EOC).set 3 kFat32EOC).set 4 kFat32EOC
  let bootx64_start_cluster := 5
  let looped := (List.range' 1 (bootx64_num_clusters - 1)).foldl
    (fun (p : List Nat × Nat) n =>
      (p.1.set p.2 ((n + bootx64_start_cluster) % 0x10000000), p.2 + 1))
    (fat0, bootx64_start_cluster)
  if looped.2 ≠ 0 then looped.1.set looped.2 kFat32EOC else looped.1

/-- The `_start_cluster` assignments performed by
`create_fat_partition` before directory/file emission: the FAT16
branch runs the `write_fat16` tree walk (which assigns every node's
start cluster); the FAT32 branch performs none. -/
def cluster_assignments (t : fat_type) (sectors_per_cluster : Nat)
    (root_entries : List fs_node) : List (String × Nat) :=
  match t with
  | fat_type.kFat16 => (write_fat16_run sectors_per_cluster root_entries).2
  | fat_type.kFat32 => []

/-- `sizeof(fat_dir_entry_t)`. -/
def fat_dir_entry_size : Nat := 32

/-- `write_fat16_context_t::_entries_per_cluster`
(`_bytes_per_cluster / sizeof(fat_dir_entry_t)`), the bound of the
assert in the FAT walk. -/
def _entries_per_cluster (sectors_per_cluster : Nat) : Nat :=
  sectors_per_cluster * kSectorSizeBytes / fat_dir_entry_size

/-- Byte offsets of the 32-byte entries `write_dir` stores into its
single `blank_sector()` scratch sector for a non-root directory:
`.` and `..` first, then one entry per child, with no bounds check. -/
def write_dir_entry_offsets (entries : List fs_node) : List Nat :=
  (List.range (2 + entries.length)).map (· * fat_dir_entry_size)

/-- Byte offsets of the entries `write_fs_contents_to_disk` stores for
the root directory: the volume-label entry, then one per child. -/
def root_dir_entry_offsets (entries : List fs_node) : List Nat :=
  (List.range (1 + entries.length)).map (· * fat_dir_entry_size)

/-- All stores land inside the single 512-byte scratch sector. -/
def emission_within_sector (offsets : List Nat) : Prop :=
  ∀ o ∈ offsets, o + fat_dir_entry_size ≤ kSectorSizeBytes

instance (offsets : List Nat) : Decidable (emission_within_sector offsets) :=
  inferInstanceAs (Decidable (∀ o ∈ offsets, o + fat_dir_entry_size ≤ kSectorSizeBytes))

end fat

end disktools

namespace disktools

open gpt fat disk_sector_writer_t

/-- C1 counterexample: at `total_sectors = 262144` (a 128-MiB image) the
partition window's `last_usable_lba` is `262141 = total_sectors - 3`,
not `total_sectors - 34`, and the backup header's
`partition_entry_lba` is `262142 = total_sectors - 2`, not
`total_sectors - 32`, so C1 as stated is false. -/
theorem C1_counterexample :
    (create_efi_boot_image_info 262144 (List.replicate 16 0) (List.replicate 16 0))._last_usable_lba = 262141 ∧
    (262141 : Nat) ≠ 262144 - 34 ∧
    (backup_gpt_header 262144 (List.replicate 16 0) (List.replicate 16 0))._partition_entry_lba = 262142 ∧
    (262142 : Nat) ≠ 262144 - 32 :=
  ⟨rfl, by decide, rfl, by decide⟩

/-- C1 (amended): for every image of `total_sectors` sectors,
`create_efi_boot_image` returns the window
`{first_usable_lba = 34, last_usable_lba = total_sectors - 3}`; the
primary header at LBA 1 stores those same values together with
`my_lba = 1`, `alternate_lba = total_sectors - 1`,
`partition_entry_count = 1`, `partition_entry_size = 128`,
`partition_entry_lba = 2`; and the backup header written at the final
LBA has `my_lba = total_sectors - 1`, `alternate_lba = 1` and
`partition_entry_lba = total_sectors - 2`. -/
theorem C1_gpt_window (total : Nat) (dg pg : List Nat) :
    create_efi_boot_image_info total dg pg = ⟨34, total - 3⟩ ∧
    (primary_gpt_header total dg pg)._signature = kEfiPartSignature ∧
    (primary_gpt_header total dg pg)._header_size = 92 ∧
    (primary_gpt_header total dg pg)._my_lba = 1 ∧
    (primary_gpt_header total dg pg)._alternate_lba = total - 1 ∧
    (primary_gpt_header total dg pg)._first_usable_lba = 34 ∧
    (primary_gpt_header total dg pg)._last_usable_lba = total - 3 ∧
    (primary_gpt_header total dg pg)._partition_entry_count = 1 ∧
    (primary_gpt_header total dg pg)._partition_entry_size = 128 ∧
    (primary_gpt_header total dg pg)._partition_entry_lba = 2 ∧
    (backup_gpt_header total dg pg)._my_lba = total - 1 ∧
    (backup_gpt_header total dg pg)._alternate_lba = 1 ∧
    (backup_gpt_header total dg pg)._partition_entry_lba = total - 2 := by
  refine ⟨?_, rfl, rfl, rfl, rfl, rfl, ?_, rfl, rfl, rfl, ?_, rfl, ?_⟩ <;>
    simp [create_efi_boot_image_info, backup_gpt_header, backup_gpt_header_pre,
      primary_gpt_header, primary_gpt_header_pre, last_lba, partition_info_t.mk.injEq] <;>
    omega

set_option maxRecDepth 20000 in
/-- C2: `write_file` evaluated at the claim's own example, a 4-byte
file.  The do-while body copies a full 512-byte sector before testing
`bytes_left`, so the 508 trailing bytes of the written sector come
from past the end of the file's heap buffer (the `junk` oracle, here
constantly `0xAB`) — they are not the zero padding the claim asserts. -/
theorem C2_write_file_small_file_junk_tail :
    (write_file_bytes [0xde, 0xad, 0xbe, 0xef] (fun _ => 0xab)).length = 512 ∧
    (write_file_bytes [0xde, 0xad, 0xbe, 0xef] (fun _ => 0xab)).take 4 =
      [0xde, 0xad, 0xbe, 0xef] ∧
    (write_file_bytes [0xde, 0xad, 0xbe, 0xef] (fun _ => 0xab)).getD 4 0 = 0xab ∧
    (0xab : Nat) ≠ 0 := by
  refine ⟨by decide, by decide, by decide, by decide⟩

set_option maxRecDepth 20000 in
/-- C3: the FAT16 walk evaluated at a root holding one file of 2049
bytes with `bytes_per_cluster = 2048` (so `ceil(size/bpc) = 2`).  The
file's start cluster is 2, but `_next_free_cluster` ends at 5 (an
advance of 3, not 2), and the two chain entries are stored at FAT
positions 0 and 1 — overwriting the reserved entries — so the FAT
entry at the start cluster 2 is still 0, not the next-cluster index 3;
the claimed chain shape does not hold. -/
theorem C3_fat16_walk_misallocation :
    (2049 + (2048 - 1)) / 2048 = 2 ∧
    (write_fat16_run 4 [fs_node.file "A" 2049]).2 = [("A", 2)] ∧
    (write_fat16_run 4 [fs_node.file "A" 2049]).1._next_free_cluster = 5 ∧
    (5 : Nat) ≠ 2 + 2 ∧
    (write_fat16_run 4 [fs_node.file "A" 2049]).1._writes =
      [(0, 0xfff8), (1, 0xfff8), (0, 3), (1, 0xfff8)] ∧
    fat16_entry (write_fat16_run 4 [fs_node.file "A" 2049]).1._writes 2 = 0 ∧
    (0 : Nat) ≠ kFat16EOC := by
  refine ⟨by decide, by decide, by decide, by decide, by decide, by decide, by decide⟩

/-- C4 counterexample: at `total_sectors = 2^23` (a 4-GiB image,
`total_sectors * 512 > 0xFFFFFFFF` but `total_sectors - 1` well below
`0xFFFFFFFF`) the emitted `size_in_lba` is `0xFFFFFFFF`, not
`min(total_sectors - 1, 0xFFFFFFFF) = 0x7FFFFF`, so C4 as stated is
false. -/
theorem C4_counterexample :
    readLE32 (protective_mbr_sector 8388608) 458 = 0xffffffff ∧
    min (8388608 - 1) 0xffffffff = 8388607 ∧ (0xffffffff : Nat) ≠ 8388607 := by
  refine ⟨by decide, by decide, by decide⟩

/-- C4 (amended): for every image size, the protective MBR at LBA 0
has a single partition record at byte offset 446 with boot indicator
0, starting CHS `{0,2,0}`, OS type `0xEE` at offset 450, ending CHS
`{0xFF,0xFF,0xFF}`, `starting_lba = 1` (LE32), and
`size_in_lba = total_sectors - 1` unless `total_sectors * 512`
exceeds `0xFFFFFFFF`, in which case `0xFFFFFFFF` (LE32); the
signature bytes `0x55 0xAA` sit at offsets 510/511 and every other
byte of the sector is zero. -/
theorem C4_protective_mbr (total : Nat) :
    protective_mbr_sector total 446 = 0 ∧
    protective_mbr_sector total 447 = 0 ∧
    protective_mbr_sector total 448 = 2 ∧
    protective_mbr_sector total 449 = 0 ∧
    protective_mbr_sector total 450 = kGptProtectivePartitionOSType ∧
    protective_mbr_sector total 451 = 0xff ∧
    protective_mbr_sector total 452 = 0xff ∧
    protective_mbr_sector total 453 = 0xff ∧
    readLE32 (protective_mbr_sector total) 454 = 1 ∧
    readLE32 (protective_mbr_sector total) 458 = mbr_size_in_lba total ∧
    protective_mbr_sector total 510 = 0x55 ∧
    protective_mbr_sector total 511 = 0xaa ∧
    (∀ i, i < 446 → protective_mbr_sector total i = 0) ∧
    (∀ i, 462 ≤ i → i < 510 → protective_mbr_sector total i = 0) := by
  have hb : ∀ i, protective_mbr_sector total i =
      (if i = 511 then 0xaa else if i = 510 then 0x55 else
       if i = 453 then 0xff else if i = 452 then 0xff else if i = 451 then 0xff else
       if i = 461 then mbr_size_in_lba total / 256 ^ 3 % 256 % 256 else
       if i = 460 then mbr_size_in_lba total / 256 ^ 2 % 256 % 256 else
       if i = 459 then mbr_size_in_lba total / 256 ^ 1 % 256 % 256 else
       if i = 458 then mbr_size_in_lba total / 256 ^ 0 % 256 % 256 else
       if i = 457 then 0 else if i = 456 then 0 else if i = 455 then 0 else
       if i = 454 then 1 else
       if i = 450 then 0xee else if i = 448 then 2 else if i = 446 then 0 else 0) :=
    fun _ => rfl
  have hv : mbr_size_in_lba total < 2 ^ 32 := by
    unfold mbr_size_in_lba last_lba kSectorSizeBytes
    split_ifs with h <;> omega
  refine ⟨rfl, rfl, rfl, rfl, rfl, rfl, rfl, rfl, ?_, ?_, rfl, rfl, ?_, ?_⟩
  · show protective_mbr_sector total 454 + 256 * protective_mbr_sector total 455 +
      256 ^ 2 * protective_mbr_sector total 456 + 256 ^ 3 * protective_mbr_sector total 457 = 1
    norm_num [show protective_mbr_sector total 454 = 1 from rfl,
      show protective_mbr_sector total 455 = 0 from rfl,
      show protective_mbr_sector total 456 = 0 from rfl,
      show protective_mbr_sector total 457 = 0 from rfl]
  · show protective_mbr_sector total 458 + 256 * protective_mbr_sector total 459 +
      256 ^ 2 * protective_mbr_sector total 460 + 256 ^ 3 * protective_mbr_sector total 461 =
      mbr_size_in_lba total
    rw [show protective_mbr_sector total 458 = mbr_size_in_lba total / 256 ^ 0 % 256 % 256 from rfl,
      show protective_mbr_sector total 459 = mbr_size_in_lba total / 256 ^ 1 % 256 % 256 from rfl,
      show protective_mbr_sector total 460 = mbr_size_in_lba total / 256 ^ 2 % 256 % 256 from rfl,
      show protective_mbr_sector total 461 = mbr_size_in_lba total / 256 ^ 3 % 256 % 256 from rfl]
    norm_num
    omega
  · intro i hi
    rw [hb i, if_neg (by omega : ¬ i = 511), if_neg (by omega : ¬ i = 510),
      if_neg (by omega : ¬ i = 453), if_neg (by omega : ¬ i = 452),
      if_neg (by omega : ¬ i = 451), if_neg (by omega : ¬ i = 461),
      if_neg (by omega : ¬ i = 460), if_neg (by omega : ¬ i = 459),
      if_neg (by omega : ¬ i = 458), if_neg (by omega : ¬ i = 457),
      if_neg (by omega : ¬ i = 456), if_neg (by omega : ¬ i = 455),
      if_neg (by omega : ¬ i = 454), if_neg (by omega : ¬ i = 450),
      if_neg (by omega : ¬ i = 448), if_neg (by omega : ¬ i = 446)]
  · intro i hi1 hi2
    rw [hb i, if_neg (by omega : ¬ i = 511), if_neg (by omega : ¬ i = 510),
      if_neg (by omega : ¬ i = 453), if_neg (by omega : ¬ i = 452),
      if_neg (by omega : ¬ i = 451), if_neg (by omega : ¬ i = 461),
      if_neg (by omega : ¬ i = 460), if_neg (by omega : ¬ i = 459),
      if_neg (by omega : ¬ i = 458), if_neg (by omega : ¬ i = 457),
      if_neg (by omega : ¬ i = 456), if_neg (by omega : ¬ i = 455),
      if_neg (by omega : ¬ i = 454), if_neg (by omega : ¬ i = 450),
      if_neg (by omega : ¬ i = 448), if_neg (by omega : ¬ i = 446)]

/-- C4 witness: the amended protective-MBR theorem instantiated at a
1000-sector image, discharging the bounded-offset hypotheses at
offsets 0 and 500. -/
theorem C4_witness :
    protective_mbr_sector 1000 0 = 0 ∧ protective_mbr_sector 1000 500 = 0 ∧
    readLE32 (protective_mbr_sector 1000) 458 = mbr_size_in_lba 1000 := by
  have h := C4_protective_mbr 1000
  exact ⟨h.2.2.2.2.2.2.2.2.2.2.2.2.1 0 (by omega),
    h.2.2.2.2.2.2.2.2.2.2.2.2.2 500 (by omega) (by omega),
    h.2.2.2.2.2.2.2.2.2.1⟩

/-- C5 counterexample: for `content_size = 0` (an FS tree holding only
an empty root) `create_writer` computes an image size of 0 bytes — the
bit-mask rounding maps 0 to 0 — while the claimed
`max(c, 128 MiB)` sizing yields 128 MiB. -/
theorem C5_counterexample :
    create_writer_size_bytes 0 = 0 ∧
    spec_image_capacity 0 = 0x8000000 ∧
    (0 : Nat) ≠ 0x8000000 := by
  refine ⟨by decide, by decide, by decide⟩

/-- C5 (amended): for every content size `c ≥ 1` (and below the
64-bit wrap-around), `create_writer` sizes the image to
`max(c, 128 MiB)` rounded up to a multiple of 128 MiB and then to a
multiple of 512 bytes, and the sector count is that size over 512;
at `c = 0` the code instead produces a 0-byte image. -/
theorem C5_image_sizing (c : Nat) (h0 : 1 ≤ c) (h1 : c + 0x7ffffff < 2 ^ 64) :
    create_writer_size_bytes c = spec_image_capacity c ∧
    create_writer_total_sectors c = spec_image_capacity c / 512 := by
  have h : create_writer_size_bytes c = spec_image_capacity c := by
    simp only [create_writer_size_bytes, spec_image_capacity, kSectorSizeBytes,
      Nat.shiftLeft_eq, Nat.shiftRight_eq_div_pow]
    norm_num
    omega
  exact ⟨h, by rw [create_writer_total_sectors, h, kSectorSizeBytes]⟩

/-- C5 witness: the sizing theorem applied at `c = 1`. -/
theorem C5_witness :
    create_writer_size_bytes 1 = spec_image_capacity 1 ∧
    create_writer_total_sectors 1 = spec_image_capacity 1 / 512 :=
  C5_image_sizing 1 (by decide) (by decide)

/-- C6: `create_fat_partition` chooses FAT16 exactly when
`total_sectors * 512 < 0x20000000` and FAT32 otherwise; on FAT16 the
BPB has `reserved_sectors = 1` and `root_entry_count = 512`; on FAT32
it has `reserved_sectors = 32`, `root_entry_count = 0`, and the FAT32
extended BPB holds `root_cluster = 2`, `information_sector = 1`,
`flags = 0x80` and `ext_boot_signature = 0x29`. -/
theorem C6_fat_type_and_bpb (total serial : Nat) (label : List Nat) :
    ((create_fat_partition_format total serial label)._type = fat_type.kFat16 ↔
      total * 512 < 0x20000000) ∧
    ((create_fat_partition_format total serial label)._type = fat_type.kFat16 →
      (create_fat_partition_format total serial label)._bpb._reserved_sectors = 1 ∧
      (create_fat_partition_format total serial label)._bpb._root_entry_count = 512) ∧
    ((create_fat_partition_format total serial label)._type = fat_type.kFat32 →
      (create_fat_partition_format total serial label)._bpb._reserved_sectors = 32 ∧
      (create_fat_partition_format total serial label)._bpb._root_entry_count = 0 ∧
      ∃ e32, (create_fat_partition_format total serial label)._ext32 = some e32 ∧
        e32._root_cluster = 2 ∧ e32._information_sector = 1 ∧ e32._flags = 0x80 ∧
        e32._ext_boot_signature = 0x29) := by
  unfold create_fat_partition_format
  simp only [kSectorSizeBytes]
  split_ifs with h <;> simp_all

/-- C6 witness: the FAT16 facts at a 128-MiB partition and the FAT32
facts at a 512-MiB partition. -/
theorem C6_witness :
    (create_fat_partition_format 262144 7 [])._bpb._reserved_sectors = 1 ∧
    (create_fat_partition_format 1048576 7 [])._bpb._reserved_sectors = 32 := by
  have h1 := C6_fat_type_and_bpb 262144 7 []
  have h2 := C6_fat_type_and_bpb 1048576 7 []
  exact ⟨(h1.2.1 (h1.1.mpr (by norm_num))).1, ((h2.2.2 (by decide))).1⟩

/-- C7: for both the primary and the backup GPT header, recomputing
CRC-32 over exactly `header_size = 92` serialized bytes of the header
with its `header_crc32` field zeroed yields the stored `header_crc32`,
and the stored `partition_array_crc32` (identical in both headers)
equals CRC-32 over exactly
`partition_entry_count * partition_entry_size = 128` bytes of the
partition entry. -/
theorem C7_gpt_crc32 (total : Nat) (dg pg : List Nat) (hdg : dg.length = 16)
    (hpg : pg.length = 16) :
    (serialize_gpt_header { primary_gpt_header total dg pg with _header_crc32 := 0 }).length
      = (primary_gpt_header total dg pg)._header_size ∧
    utils.rc_crc32 0 (serialize_gpt_header { primary_gpt_header total dg pg with _header_crc32 := 0 })
      = (primary_gpt_header total dg pg)._header_crc32 ∧
    (serialize_gpt_header { backup_gpt_header total dg pg with _header_crc32 := 0 }).length
      = (backup_gpt_header total dg pg)._header_size ∧
    utils.rc_crc32 0 (serialize_gpt_header { backup_gpt_header total dg pg with _header_crc32 := 0 })
      = (backup_gpt_header total dg pg)._header_crc32 ∧
    (serialize_gpt_partition (create_efi_boot_image_partition total pg)).length
      = (primary_gpt_header total dg pg)._partition_entry_count *
        (primary_gpt_header total dg pg)._partition_entry_size ∧
    utils.rc_crc32 0 (serialize_gpt_partition (create_efi_boot_image_partition total pg))
      = (primary_gpt_header total dg pg)._partition_array_crc32 ∧
    (backup_gpt_header total dg pg)._partition_array_crc32
      = (primary_gpt_header total dg pg)._partition_array_crc32 := by
  have hzp : ({ primary_gpt_header total dg pg with _header_crc32 := 0 } : gpt_header)
      = primary_gpt_header_pre total dg pg := rfl
  have hzb : ({ backup_gpt_header total dg pg with _header_crc32 := 0 } : gpt_header)
      = backup_gpt_header_pre total dg pg := rfl
  refine ⟨?_, rfl, ?_, rfl, ?_, rfl, rfl⟩
  · rw [hzp]
    simp [serialize_gpt_header, bytesLE, primary_gpt_header, primary_gpt_header_pre, hdg]
  · rw [hzb]
    simp [serialize_gpt_header, bytesLE, backup_gpt_header_pre, backup_gpt_header,
      gpt.gpt_header._header_size, primary_gpt_header, primary_gpt_header_pre, hdg]
  · simp [serialize_gpt_partition, bytesLE, create_efi_boot_image_partition,
      kEfiSystemPartitionUuid, kEfiBootPartName, hpg, primary_gpt_header,
      primary_gpt_header_pre]

/-- C7 witness: the CRC theorem applied at a 128-MiB image with the
all-zero 16-byte GUIDs. -/
theorem C7_witness :
    utils.rc_crc32 0 (serialize_gpt_header
        { primary_gpt_header 262144 (List.replicate 16 0) (List.replicate 16 0) with
          _header_crc32 := 0 })
      = (primary_gpt_header 262144 (List.replicate 16 0) (List.replicate 16 0))._header_crc32 ∧
    (serialize_gpt_header { primary_gpt_header 262144 (List.replicate 16 0) (List.replicate 16 0) with
        _header_crc32 := 0 }).length
      = (primary_gpt_header 262144 (List.replicate 16 0) (List.replicate 16 0))._header_size := by
  have h := C7_gpt_crc32 262144 (List.replicate 16 0) (List.replicate 16 0) rfl rfl
  exact ⟨h.2.1, h.1⟩

/-- C8: `create_fat_partition` returns `FAILED_PRECONDITION` if and
only if the writer is not good or `total_sectors = 0`; in that case
the result is decided before any write (it cannot depend on any write
outcome); and when the preconditions hold but the boot-sector write at
partition LBA 0 fails, it returns `INTERNAL`. -/
theorem C8_status (g : Bool) (total : Nat) (ok : Bool) :
    (create_fat_partition_status g total ok = Except.error Code.FAILED_PRECONDITION ↔
      (g = false ∨ total = 0)) ∧
    ((g = false ∨ total = 0) → ∀ ok', create_fat_partition_status g total ok =
        create_fat_partition_status g total ok') ∧
    (g = true → total ≠ 0 → ok = false →
      create_fat_partition_status g total ok = Except.error Code.INTERNAL) := by
  unfold create_fat_partition_status
  rcases g <;> rcases ok <;> by_cases h : total = 0 <;> simp_all

/-- C8 witness: a bad writer yields `FAILED_PRECONDITION`; a good
writer with a failing boot-sector write yields `INTERNAL`. -/
theorem C8_witness :
    create_fat_partition_status false 5 true = Except.error Code.FAILED_PRECONDITION ∧
    create_fat_partition_status true 5 false = Except.error Code.INTERNAL :=
  ⟨(C8_status false 5 true).1.mpr (Or.inl rfl),
   (C8_status true 5 false).2.2 rfl (by decide) rfl⟩

set_option maxRecDepth 20000 in
/-- C9 counterexample: the FAT32 branch also writes
`FAT[5] = 0x0FFFFFF8` (the post-loop flush fires because
`cluster_counter = 5` is non-zero), so the FAT does not contain *only*
the fixed entries `FAT[0]`…`FAT[4]` claimed. -/
theorem C9_counterexample :
    (fat32_first_fat_sector []).getD 5 0 = kFat32EOC ∧ kFat32EOC ≠ 0 := by
  refine ⟨by decide, by decide⟩

set_option maxRecDepth 20000 in
/-- C9 (amended): whenever FAT32 is selected, `create_fat_partition`
writes a FAT holding exactly `FAT[0] = 0x0FFFFF00 | media_descriptor`,
`FAT[1] = … = FAT[5] = 0x0FFFFFF8` (entry 5 written by the post-loop
flush) and zeros elsewhere, independent of the FS tree contents: the
chain loop bound `bootx64_num_clusters` is the constant 0, and on the
FAT32 path no directory or file ever receives a start-cluster
assignment. -/
theorem C9_fat32_fixed_fat (es es' : List fs_node) (spc : Nat) :
    fat32_first_fat_sector es = fat32_first_fat_sector es' ∧
    (fat32_first_fat_sector es).length = 128 ∧
    (fat32_first_fat_sector es).take 6 =
      [0x0fffff00 ||| 0xf8, kFat32EOC, kFat32EOC, kFat32EOC, kFat32EOC, kFat32EOC] ∧
    (fat32_first_fat_sector es).drop 6 = List.replicate 122 0 ∧
    bootx64_num_clusters = 0 ∧
    cluster_assignments fat_type.kFat32 spc es = [] := by
  have hes : fat32_first_fat_sector es = fat32_first_fat_sector [] := rfl
  refine ⟨rfl, ?_, ?_, ?_, rfl, rfl⟩ <;> rw [hes] <;> decide

/-- C10: every directory is emitted into a single 512-byte scratch
sector of 32-byte entries with no bounds check; the stores stay inside
the sector exactly when the root has at most 15 children (one slot
goes to the volume label) and a non-root directory at most 14 (two
slots go to `.` and `..`); this is strictly tighter than the
entries-per-cluster assert of the FAT walk, which (at 4 sectors per
cluster) admits 64 entries, a count whose emission overruns the
sector. -/
theorem C10_dir_emission_bounds (es : List fs_node) :
    (emission_within_sector (root_dir_entry_offsets es) ↔ es.length ≤ 15) ∧
    (emission_within_sector (write_dir_entry_offsets es) ↔ es.length ≤ 14) ∧
    15 < _entries_per_cluster 4 ∧
    (List.replicate 64 (fs_node.file "F" 1)).length ≤ _entries_per_cluster 4 ∧
    ¬ emission_within_sector
        (write_dir_entry_offsets (List.replicate 64 (fs_node.file "F" 1))) := by
  refine ⟨?_, ?_, by decide, by decide, by decide⟩
  · simp only [emission_within_sector, root_dir_entry_offsets, List.mem_map,
      List.mem_range, fat_dir_entry_size, kSectorSizeBytes, forall_exists_index, and_imp]
    constructor
    · intro h
      have := h (es.length * 32) es.length (by omega) rfl
      omega
    · intro h o i hi hoi
      omega
  · simp only [emission_within_sector, write_dir_entry_offsets, List.mem_map,
      List.mem_range, fat_dir_entry_size, kSectorSizeBytes, forall_exists_index, and_imp]
    constructor
    · intro h
      have := h ((es.length + 1) * 32) (es.length + 1) (by omega) rfl
      omega
    · intro h o i hi hoi
      omega

/-- C10 witness: a root with 15 children fits; a non-root directory
with 15 children does not. -/
theorem C10_witness :
    emission_within_sector (root_dir_entry_offsets (List.replicate 15 (fs_node.file "F" 1))) ∧
    ¬ emission_within_sector (write_dir_entry_offsets (List.replicate 15 (fs_node.file "F" 1))) := by
  have h := C10_dir_emission_bounds (List.replicate 15 (fs_node.file "F" 1))
  exact ⟨h.1.mpr (by decide), fun hc => absurd (h.2.1.mp hc) (by decide)⟩

end disktools
